import Mathlib

/-!
Shallow embedding of the `ui-api-automation` repository (page objects over a
browser-automation engine, environment-driven configuration, a logger
provider), together with proofs about the embedded operations.

The browser page is an external collaborator.  The cart operations of
`pages/inventory_page.py` interact with it only through two primitives:
`self.add_buttons.count()` (read the number of add-to-cart buttons currently
matching) and `self.click(self.add_buttons.first)` (click the first matching
button; this can fail, e.g. time out when no button matches).  We therefore
embed those operations over an abstract page-state type `S` with a
`count : S → Nat` observation and a `click : S → Option S` action, and
separately give the concrete SauceDemo page model (each click converts one
add button into a remove button and bumps the cart badge) used by the
end-to-end claims.
-/

namespace UiApi

/-! ## Generic embedding of the cart operations (`pages/inventory_page.py`) -/

section Cart

variable {S : Type}

/-- The body of the `for i in range(to_add)` loop of `add_items_to_cart`:
perform `k` clicks on the first add button, incrementing `added` after each
click; a failing click aborts the whole run (the Python exception
propagates). -/
def addLoop (click : S → Option S) : Nat → S → Option (Nat × S)
  | 0, s => some (0, s)
  | k + 1, s =>
    (click s).bind fun s1 =>
      (addLoop click k s1).map fun p => (p.1 + 1, p.2)

/-- `InventoryPage.add_items_to_cart` (inventory_page.py lines 49-59):
reads `available = self.add_buttons.count()` once, sets
`to_add = min(number, available)`, then clicks the first add button
`to_add` times, counting the clicks, and returns the count. -/
def add_items_to_cart (count : S → Nat) (click : S → Option S)
    (number : Nat) (s : S) : Option (Nat × S) :=
  let available := count s
  let to_add := min number available
  addLoop click to_add s

/-- Modelled from the spec: the re-querying variant of `add_items_to_cart`
that the spec describes — "clicks up to `min(n, availableAddButtons)` times,
re-querying the live count of remaining add buttons before each click".
It checks the live count before every click and stops as soon as it is
zero, clicking at most `number` times. -/
def addRequeryLoop (count : S → Nat) (click : S → Option S) :
    Nat → S → Option (Nat × S)
  | 0, s => some (0, s)
  | k + 1, s =>
    if count s = 0 then some (0, s)
    else
      (click s).bind fun s1 =>
        (addRequeryLoop count click k s1).map fun p => (p.1 + 1, p.2)

/-- Modelled from the spec: `add_items_to_cart` as the spec words it,
re-querying the live count before each individual click. -/
def add_items_to_cart_requery (count : S → Nat) (click : S → Option S)
    (number : Nat) (s : S) : Option (Nat × S) :=
  addRequeryLoop count click number s

/-- `InventoryPage.add_all_items_to_cart` (inventory_page.py lines 61-68):
`while self.add_buttons.count() > 0: click first; added += 1`.  The while
loop is embedded with explicit fuel: `none` means the loop was not over
within `fuel` iterations (or a click failed). -/
def addAllLoop (count : S → Nat) (click : S → Option S) :
    Nat → S → Option (Nat × S)
  | 0, s => if count s = 0 then some (0, s) else none
  | f + 1, s =>
    if count s = 0 then some (0, s)
    else
      (click s).bind fun s1 =>
        (addAllLoop count click f s1).map fun p => (p.1 + 1, p.2)

/-- `InventoryPage.add_all_items_to_cart`, fuelled. -/
def add_all_items_to_cart (count : S → Nat) (click : S → Option S)
    (fuel : Nat) (s : S) : Option (Nat × S) :=
  addAllLoop count click fuel s

end Cart

/-! ## Concrete SauceDemo page model -/

/-- The observable inventory-page state: how many add-to-cart buttons are
currently shown, and the cart-badge count.  (On SauceDemo every click on an
add button converts it into a remove button and increments the badge.) -/
structure PageState where
  adds : Nat
  badge : Nat
  deriving DecidableEq, Repr

/-- Clicking `self.add_buttons.first` on the SauceDemo inventory page:
fails (Playwright times out) when no add button matches; otherwise one add
button becomes a remove button and the cart badge grows by one. -/
def clickFirstAdd (s : PageState) : Option PageState :=
  if s.adds = 0 then none else some ⟨s.adds - 1, s.badge + 1⟩

/-- The text shown by the cart badge: the decimal rendering of its count. -/
def badge_text (s : PageState) : String :=
  toString s.badge

/-! ## Python string builtins

`str.strip()`, `str.split(',')` and `int(str)` are Python builtins used by
`assert_cart_count` and `expected_airports`; they are modelled here by
structural recursion on the character list of the string. -/

/-- The ASCII whitespace characters removed by Python `str.strip()`. -/
def pyWhitespace (c : Char) : Bool :=
  c = ' ' || c = '\t' || c = '\n' || c = '\r' || c = '\x0b' || c = '\x0c'

/-- Python `str.strip()` on a character list: drop leading and trailing
whitespace. -/
def stripList (l : List Char) : List Char :=
  ((l.dropWhile pyWhitespace).reverse.dropWhile pyWhitespace).reverse

/-- Python `str.strip()`. -/
def pyStrip (s : String) : String :=
  String.mk (stripList s.data)

/-- Python `str.split(',')` on a character list: split at every comma,
keeping empty pieces (so `"".split(',') == [""]`). -/
def splitCommaList (l : List Char) : List (List Char) :=
  match l with
  | [] => [[]]
  | c :: cs =>
    if c = ',' then [] :: splitCommaList cs
    else
      match splitCommaList cs with
      | [] => [[c]]
      | p :: ps => (c :: p) :: ps

/-- Python `str.split(',')`. -/
def pySplitComma (s : String) : List String :=
  (splitCommaList s.data).map String.mk

/-- Decimal value of a nonempty all-digit character list, `none` otherwise. -/
def digitsVal (l : List Char) : Option Nat :=
  if l.isEmpty then none
  else
    l.foldl
      (fun acc c =>
        acc.bind fun n =>
          if c.isDigit then some (n * 10 + (c.toNat - '0'.toNat)) else none)
      (some 0)

/-- Python `int(str)`: surrounding whitespace is ignored, an optional sign
precedes a nonempty run of decimal digits; anything else raises
`ValueError`, modelled as `none`.  (Underscore digit grouping is not
modelled.) -/
def pyInt (s : String) : Option Int :=
  match stripList s.data with
  | '+' :: rest => (digitsVal rest).map Int.ofNat
  | '-' :: rest => (digitsVal rest).map fun n => -(n : Int)
  | rest => (digitsVal rest).map Int.ofNat

/-! ## `InventoryPage.assert_cart_count` (inventory_page.py lines 86-97) -/

/-- Outcome of `assert_cart_count`: success, a Python `AssertionError` with
its message, a timeout from `expect_visible`, or a `ValueError` from
`int(...)`. -/
inductive AssertResult where
  | ok
  | assertionError (msg : String)
  | timeoutError
  | valueError
  deriving DecidableEq, Repr

/-- `InventoryPage.assert_cart_count(expected)`.  The badge element is
`none` when absent / not visible, `some txt` when visible with (stripped)
text `txt`.  For `expected == 0` the code checks `is_visible` and treats an
absent badge as count `0`, otherwise parses the text with `int(...)`; for
non-zero it waits for visibility (`expect_visible`, a timeout failure when
the badge never appears) and compares the text with `str(expected)`. -/
def assert_cart_count (badge : Option String) (expected : Nat) : AssertResult :=
  if expected = 0 then
    match badge with
    | none => .ok
    | some txt =>
      match pyInt txt with
      | none => .valueError
      | some v =>
        if v = 0 then .ok
        else .assertionError ("Expected empty cart (0) but badge showed " ++ toString v)
  else
    match badge with
    | none => .timeoutError
    | some txt =>
      if txt = toString expected then .ok
      else .assertionError ("Cart badge expected " ++ toString expected ++ " got " ++ txt)

/-! ## `AirportData.expected_airports` (config/settings.py lines 49-51) -/

/-- `AirportData.expected_airports`:
`[a.strip() for a in self.expected_airports_csv.split(',') if a.strip()]` —
split the CSV string on every comma, strip whitespace from each piece, keep
the pieces that are non-empty after stripping, in order. -/
def expected_airports (csv : String) : List String :=
  ((pySplitComma csv).map pyStrip).filter fun a => a ≠ ""

/-! ## `BasePage.fill` (base_page.py lines 46-51) -/

/-- A discrete write action performed on the targeted input field. -/
inductive FieldAction where
  | write (text : String)
  deriving DecidableEq, Repr

/-- `BasePage.fill(target, text, clear)`: the ordered list of discrete
write actions it performs on the resolved field — `loc.fill("")` first when
`clear` is set, then `loc.fill(text)`. -/
def fill (text : String) (clear : Bool) : List FieldAction :=
  (if clear then [FieldAction.write ""] else []) ++ [FieldAction.write text]

/-- Effect of one write action on the field content. -/
def applyAction (_field : String) : FieldAction → String
  | .write t => t

/-- Run a list of field actions on an initial field content. -/
def runActions (field : String) (acts : List FieldAction) : String :=
  acts.foldl applyAction field

/-! ## `setup_logger` (utils/logger.py lines 13-41) -/

/-- A handler attached to a logger: the console stream handler, or the
per-run file handler named by the session timestamp. -/
inductive Handler where
  | console
  | file (sessionTs : String)
  deriving DecidableEq, Repr

/-- Process-wide state of the logging subsystem: the keys of the module
cache `_loggers`, and the handler list of each named logger known to the
`logging` module (a name not present has no handlers yet). -/
structure LogState where
  cache : List String
  handlers : List (String × List Handler)
  deriving DecidableEq, Repr

/-- Handler list of the named logger (`logging.getLogger(name).handlers`). -/
def getHandlers (st : LogState) (name : String) : List Handler :=
  match st.handlers.lookup name with
  | some hs => hs
  | none => []

/-- `setup_logger(name)` at session timestamp `ts`: return the cached
logger when `name in _loggers`; otherwise fetch `logging.getLogger(name)`,
attach the console handler and the per-run file handler only when the
logger has no handlers yet, cache it, and return it.  The returned logger
is identified by its name, since `logging.getLogger` yields one object per
name. -/
def setup_logger (ts : String) (name : String) (st : LogState) :
    String × LogState :=
  if name ∈ st.cache then
    (name, st)
  else
    let hs := getHandlers st name
    let hs1 := if hs.isEmpty then [Handler.console, Handler.file ts] else hs
    (name,
      ⟨name :: st.cache,
       (name, hs1) :: st.handlers.eraseP fun p => p.1 == name⟩)

/-! ## `LoginPage.login` (login_page.py lines 31-37) -/

/-- Python `x or default` for `x : str | None`: `None` and the empty string
are falsy, every other string is truthy. -/
def orDefault : Option String → String → String
  | none, d => d
  | some s, d => if s = "" then d else s

/-- `LoginPage.login(username, password)`: after the
`username = username or credentials.username` /
`password = password or credentials.password` fallbacks, fill the username
field then the password field and click the login button.  The result is
the `(username, password)` pair actually written into the form fields. -/
def login (defaultUser defaultPass : String)
    (username password : Option String) : String × String :=
  (orDefault username defaultUser, orDefault password defaultPass)

/-- `Credentials.username` default (settings.py line 37) when the
`SAUCE_USERNAME` environment variable is unset. -/
def default_username : String := "standard_user"

/-- `Credentials.password` default (settings.py line 38) when the
`SAUCE_PASSWORD` environment variable is unset. -/
def default_password : String := "secret_sauce"

/-! ## Helper lemmas -/

/-- On the concrete SauceDemo page, `k` clicks on the first add button all
succeed and move `k` items from the add buttons to the badge, provided `k`
buttons are available. -/
theorem addLoop_clickFirstAdd :
    ∀ (k : Nat) (s : PageState), k ≤ s.adds →
      addLoop clickFirstAdd k s = some (k, ⟨s.adds - k, s.badge + k⟩)
  | 0, s, _ => by simp [addLoop]
  | k + 1, s, h => by
    have hpos : ¬ s.adds = 0 := by omega
    have ih := addLoop_clickFirstAdd k ⟨s.adds - 1, s.badge + 1⟩ (by simp; omega)
    simp [addLoop, clickFirstAdd, hpos, ih]
    constructor <;> omega

/-- Under the unit-decrement click semantics, the cached-count click loop
agrees with the spec's re-querying loop. -/
theorem addLoop_eq_addRequeryLoop {S : Type} (count : S → Nat) (click : S → Option S)
    (hdec : ∀ t, 0 < count t → ∃ u, click t = some u ∧ count u = count t - 1) :
    ∀ (n : Nat) (s : S),
      addLoop click (min n (count s)) s = addRequeryLoop count click n s
  | 0, s => by simp [addLoop, addRequeryLoop]
  | n + 1, s => by
    by_cases hc : count s = 0
    · simp [hc, addLoop, addRequeryLoop]
    · obtain ⟨u, hu, hcu⟩ := hdec s (by omega)
      have hmin : min (n + 1) (count s) = min n (count u) + 1 := by omega
      have ih := addLoop_eq_addRequeryLoop count click hdec n u
      rw [hmin]
      simp [addLoop, addRequeryLoop, hc, hu, ih]

/-- Under the unit-decrement click semantics, the while loop of
`add_all_items_to_cart` clicks exactly `count s` times when given at least
that much fuel, and ends in a state with no add buttons left. -/
theorem addAllLoop_total {S : Type} (count : S → Nat) (click : S → Option S)
    (hdec : ∀ t, 0 < count t → ∃ u, click t = some u ∧ count u = count t - 1) :
    ∀ (fuel : Nat) (s : S), count s ≤ fuel →
      ∃ t, addAllLoop count click fuel s = some (count s, t) ∧ count t = 0
  | 0, s, h => by
    have hc : count s = 0 := by omega
    exact ⟨s, by simp [addAllLoop, hc], hc⟩
  | fuel + 1, s, h => by
    by_cases hc : count s = 0
    · exact ⟨s, by simp [addAllLoop, hc], hc⟩
    · obtain ⟨u, hu, hcu⟩ := hdec s (by omega)
      obtain ⟨t, ht, htc⟩ := addAllLoop_total count click hdec fuel u (by omega)
      refine ⟨t, ?_, htc⟩
      have hsum : count u + 1 = count s := by omega
      simp [addAllLoop, hc, hu, ht, hsum]

/-! ## Claims -/

/-- C1: for every requested number `n`, `add_items_to_cart(n)` returns
exactly `min n a` where `a` is the number of available add-to-cart buttons
at call time — exactly `n` when `n ≤ a`, and `a` (silently capping, never
raising an error) when `n > a`. -/
theorem C1_add_items_to_cart_returns_min (n : Nat) (s : PageState) :
    add_items_to_cart PageState.adds clickFirstAdd n s =
      some (min n s.adds, ⟨s.adds - min n s.adds, s.badge + min n s.adds⟩) :=
  addLoop_clickFirstAdd (min n s.adds) s (Nat.min_le_right n s.adds)

/-- C2 counterexample: an environment in which the live add-button count
drops to zero after the first click (`click` wipes the whole set).  A
re-querying implementation stops after one click, but `add_items_to_cart`
still performs the cached `min n a` clicks and reports two — so the code
does not re-query the live count before each click. -/
theorem C2_add_items_to_cart_not_requery :
    add_items_to_cart (fun n => n) (fun _ => some 0) 2 3 ≠
      add_items_to_cart_requery (fun n => n) (fun _ => some 0) 2 3 := by
  decide

/-- C2 amended: `add_items_to_cart(n)` reads the live add-button count once
before its click loop and performs exactly `min n count` clicks without
re-querying; this coincides with re-querying the live count before each
click whenever each click on a page with at least one add button succeeds
and decreases the live count by exactly one (as on the real inventory
page). -/
theorem C2_add_items_to_cart_caches_count {S : Type}
    (count : S → Nat) (click : S → Option S)
    (hdec : ∀ t, 0 < count t → ∃ u, click t = some u ∧ count u = count t - 1)
    (n : Nat) (s : S) :
    add_items_to_cart count click n s = addLoop click (min n (count s)) s ∧
    add_items_to_cart count click n s = add_items_to_cart_requery count click n s :=
  ⟨rfl, addLoop_eq_addRequeryLoop count click hdec n s⟩

/-- C2 witness: with the unit-decrement click on a bare count, the cached
and re-querying behaviours agree at `n = 2` from a page with `3` buttons. -/
theorem C2_add_items_to_cart_caches_count_witness :
    add_items_to_cart (fun n => n) (fun t => if t = 0 then none else some (t - 1)) 2 3 =
      addLoop (fun t => if t = 0 then none else some (t - 1)) (min 2 3) 3 ∧
    add_items_to_cart (fun n => n) (fun t => if t = 0 then none else some (t - 1)) 2 3 =
      add_items_to_cart_requery (fun n => n) (fun t => if t = 0 then none else some (t - 1)) 2 3 :=
  C2_add_items_to_cart_caches_count (fun n => n)
    (fun t => if t = 0 then none else some (t - 1))
    (fun t ht => ⟨t - 1, by
      show (if t = 0 then none else some (t - 1)) = some (t - 1)
      exact if_neg (Nat.pos_iff_ne_zero.mp ht), rfl⟩) 2 3

/-- C3: `add_all_items_to_cart()` re-queries the live count at every
iteration and its loop stops exactly when that count reaches zero; when
each click removes exactly one add button, the loop terminates (any fuel
bound of at least the initial count suffices) and returns the initial
number of available add buttons, ending with no add buttons left. -/
theorem C3_add_all_items_to_cart_total {S : Type}
    (count : S → Nat) (click : S → Option S)
    (hdec : ∀ t, 0 < count t → ∃ u, click t = some u ∧ count u = count t - 1)
    (fuel : Nat) (s : S) (hf : count s ≤ fuel) :
    ∃ t, add_all_items_to_cart count click fuel s = some (count s, t) ∧
      count t = 0 :=
  addAllLoop_total count click hdec fuel s hf

/-- C3 witness: with the unit-decrement click on a bare count, starting
from `3` buttons with fuel `3`, the loop returns `3` and ends at `0`. -/
theorem C3_add_all_items_to_cart_total_witness :
    ∃ t, add_all_items_to_cart (fun n => n)
        (fun t => if t = 0 then none else some (t - 1)) 3 3 = some (3, t) ∧
      t = 0 :=
  C3_add_all_items_to_cart_total (fun n => n)
    (fun t => if t = 0 then none else some (t - 1))
    (fun t ht => ⟨t - 1, by
      show (if t = 0 then none else some (t - 1)) = some (t - 1)
      exact if_neg (Nat.pos_iff_ne_zero.mp ht), rfl⟩) 3 3 (by decide)

/-- C4: `assert_cart_count(0)` succeeds when the badge is absent (absence
is treated as count zero) and when the badge is visible with text "0"; for
every positive `expected` the code waits for badge visibility (timing out
when it never appears) and then raises a descriptive assertion error
exactly when the badge text differs from the decimal rendering of
`expected`, naming both the expected and the actual value. -/
theorem C4_assert_cart_count_spec (expected : Nat) (he : 0 < expected)
    (txt : String) :
    assert_cart_count none 0 = .ok ∧
    assert_cart_count (some "0") 0 = .ok ∧
    assert_cart_count none expected = .timeoutError ∧
    (assert_cart_count (some txt) expected = .ok ↔ txt = toString expected) ∧
    (txt ≠ toString expected →
      assert_cart_count (some txt) expected =
        .assertionError ("Cart badge expected " ++ toString expected ++ " got " ++ txt)) := by
  have hne : ¬ expected = 0 := by omega
  refine ⟨by decide, by decide, by simp [assert_cart_count, hne], ?_, ?_⟩
  · by_cases h : txt = toString expected <;> simp [assert_cart_count, hne, h]
  · intro h
    simp [assert_cart_count, hne, h]

/-- C4 witness: instance at `expected = 1` and badge text "2". -/
theorem C4_assert_cart_count_spec_witness :
    assert_cart_count none 0 = .ok ∧
    assert_cart_count (some "0") 0 = .ok ∧
    assert_cart_count none 1 = .timeoutError ∧
    (assert_cart_count (some "2") 1 = .ok ↔ "2" = toString 1) ∧
    ("2" ≠ toString 1 →
      assert_cart_count (some "2") 1 =
        .assertionError ("Cart badge expected " ++ toString 1 ++ " got " ++ "2")) :=
  C4_assert_cart_count_spec 1 (by decide) "2"

/-- C5: from an inventory page with exactly 6 available add buttons and an
empty cart, `add_all_items_to_cart()` (with fuel 6, enough for its while
loop) and `add_items_to_cart(6)` have the same effect: both return 6 and
both leave the page in the state whose cart badge reads "6". -/
theorem C5_add_all_equiv_add_items_six (s : PageState)
    (h6 : s.adds = 6) (h0 : s.badge = 0) :
    add_all_items_to_cart PageState.adds clickFirstAdd 6 s = some (6, ⟨0, 6⟩) ∧
    add_items_to_cart PageState.adds clickFirstAdd 6 s = some (6, ⟨0, 6⟩) ∧
    badge_text ⟨0, 6⟩ = "6" := by
  have hs : s = ⟨6, 0⟩ := by
    obtain ⟨a, b⟩ := s
    simp only [PageState.mk.injEq]
    exact ⟨h6, h0⟩
  rw [hs]
  decide

/-- C5 witness: instance at the page state with 6 add buttons and badge 0. -/
theorem C5_add_all_equiv_add_items_six_witness :
    add_all_items_to_cart PageState.adds clickFirstAdd 6 ⟨6, 0⟩ = some (6, ⟨0, 6⟩) ∧
    add_items_to_cart PageState.adds clickFirstAdd 6 ⟨6, 0⟩ = some (6, ⟨0, 6⟩) ∧
    badge_text ⟨0, 6⟩ = "6" :=
  C5_add_all_equiv_add_items_six ⟨6, 0⟩ rfl rfl

/-- C6 counterexample: parsing "A,A" yields the list with a duplicated
entry, so the parsed expected-airports list is not duplicate-free. -/
theorem C6_expected_airports_duplicates_survive :
    expected_airports "A,A" = ["A", "A"] ∧
      ¬ (expected_airports "A,A").Nodup := by
  decide

/-- C6 amended: the parsed expected-airports list never contains a blank
entry (entries empty after stripping are dropped), preserves the input
order — it is a sublist of the stripped comma-separated pieces, keeping
their relative order — and duplicate airport names are retained: every
non-blank name occurs exactly as often as among the stripped pieces of the
input. -/
theorem C6_expected_airports_strips_blanks_keeps_duplicates
    (csv a : String) (ha : a ≠ "") :
    "" ∉ expected_airports csv ∧
    List.Sublist (expected_airports csv) ((pySplitComma csv).map pyStrip) ∧
    (expected_airports csv).count a =
      ((pySplitComma csv).map pyStrip).count a := by
  refine ⟨?_, ?_, ?_⟩
  · intro hmem
    have h := List.mem_filter.mp hmem
    simp at h
  · exact List.filter_sublist ((pySplitComma csv).map pyStrip)
  · exact List.count_filter (by simp [ha])

/-- C6 witness: instance at the input "A,A" and the name "A". -/
theorem C6_expected_airports_strips_blanks_keeps_duplicates_witness :
    "" ∉ expected_airports "A,A" ∧
    List.Sublist (expected_airports "A,A") ((pySplitComma "A,A").map pyStrip) ∧
    (expected_airports "A,A").count "A" =
      ((pySplitComma "A,A").map pyStrip).count "A" :=
  C6_expected_airports_strips_blanks_keeps_duplicates "A,A" "A" (by decide)

/-- C7: parsing the CSV string "A, B ,,C" yields exactly ["A", "B", "C"] —
split on every comma, whitespace-stripped, empty entries dropped, order
preserved. -/
theorem C7_expected_airports_roundtrip :
    expected_airports "A, B ,,C" = ["A", "B", "C"] := by
  decide

/-- C8: `fill(target, text)` with `clear` set performs exactly two discrete
write actions in order — writing the empty string, then writing `text` —
leaving the field holding `text`; the pair is not atomic: running only the
first action leaves the field cleared but empty. -/
theorem C8_fill_clear_two_writes (field text : String) :
    fill text true = [FieldAction.write "", FieldAction.write text] ∧
    runActions field (fill text true) = text ∧
    runActions field ((fill text true).take 1) = "" :=
  ⟨rfl, rfl, rfl⟩

/-- C9: `setup_logger` is idempotent per name: a second call with the same
name (at any later session timestamp) returns exactly the result of the
first call, changing nothing; and the first call for a fresh name attaches
exactly one console handler and one per-run file handler. -/
theorem C9_setup_logger_idempotent (ts1 ts2 name : String) (st : LogState)
    (hc : name ∉ st.cache) (hh : getHandlers st name = []) :
    (∀ st2 : LogState,
      setup_logger ts2 name (setup_logger ts1 name st2).2 =
        setup_logger ts1 name st2) ∧
    getHandlers (setup_logger ts1 name st).2 name =
      [Handler.console, Handler.file ts1] := by
  constructor
  · intro st2
    by_cases h : name ∈ st2.cache
    · simp [setup_logger, h]
    · simp [setup_logger, h]
  · simp only [setup_logger, if_neg hc]
    rw [hh]
    simp [getHandlers, List.lookup]

/-- C9 witness: instance for the logger name "Page" starting from the
pristine logging state. -/
theorem C9_setup_logger_idempotent_witness :
    (∀ st2 : LogState,
      setup_logger "t2" "Page" (setup_logger "t1" "Page" st2).2 =
        setup_logger "t1" "Page" st2) ∧
    getHandlers (setup_logger "t1" "Page" (⟨[], []⟩ : LogState)).2 "Page" =
      [Handler.console, Handler.file "t1"] :=
  C9_setup_logger_idempotent "t1" "t2" "Page" ⟨[], []⟩ (by decide) (by decide)

/-- C10: `login` falls back to the configured default credentials on every
falsy argument — both on an omitted (`None`) argument and on the empty
string — so, as long as the configured defaults are nonempty, no call to
`login` can submit an empty username or an empty password. -/
theorem C10_login_falsy_fallback (du dp : String)
    (hdu : du ≠ "") (hdp : dp ≠ "") :
    (∀ pw, (login du dp (some "") pw).1 = du) ∧
    (∀ us, (login du dp us (some "")).2 = dp) ∧
    (∀ pw, (login du dp none pw).1 = du) ∧
    (∀ us, (login du dp us none).2 = dp) ∧
    (∀ us pw, (login du dp us pw).1 ≠ "" ∧ (login du dp us pw).2 ≠ "") := by
  refine ⟨fun pw => rfl, fun us => rfl, fun pw => rfl, fun us => rfl,
    fun us pw => ⟨?_, ?_⟩⟩
  · cases us with
    | none => exact hdu
    | some s => by_cases h : s = "" <;> simp [login, orDefault, h, hdu]
  · cases pw with
    | none => exact hdp
    | some s => by_cases h : s = "" <;> simp [login, orDefault, h, hdp]

/-- C10 witness: instance at the shipped default credentials. -/
theorem C10_login_falsy_fallback_witness :
    (∀ pw, (login default_username default_password (some "") pw).1 =
      default_username) ∧
    (∀ us, (login default_username default_password us (some "")).2 =
      default_password) ∧
    (∀ pw, (login default_username default_password none pw).1 =
      default_username) ∧
    (∀ us, (login default_username default_password us none).2 =
      default_password) ∧
    (∀ us pw, (login default_username default_password us pw).1 ≠ "" ∧
      (login default_username default_password us pw).2 ≠ "") :=
  C10_login_falsy_fallback default_username default_password
    (by decide) (by decide)

end UiApi
